import Mathlib

/-
Verification development for the goldwarden agent core: the encrypted
credential store with its lock state machine (cli/agent/config), the
sync engine (cli/agent/bitwarden/sync.go) and the websocket push
channel framing/decoding (cli/agent/bitwarden websocket file).

Modelling conventions:
  * Plaintexts are byte strings, modelled as List Nat (Go strings are
    arbitrary byte sequences, not necessarily UTF-8).
  * The Argon2 KDF composed with the SHA3-256 digest and hex encoding is
    idealized as an injective pairing of the PIN with the device UUID
    (ConfigKey).  The KDF and hash are external library calls
    (golang.org/x/crypto); the idealization assumes no collisions and
    that a derived key is never the all-zero 32-byte string.
  * The ChaCha20-Poly1305 envelope cipher plus base64 transport encoding
    (tink-go, external library) is idealized as an authenticated cipher:
    a ciphertext remembers the key it was produced under and its
    plaintext; decryption under any other key fails, as does decryption
    of the empty string (too short for nonce plus tag) and of any
    non-ciphertext string (authentication failure).
  * The msgpack byte-level decoder (vmihailenco/msgpack DecodeSlice,
    external library) is abstracted as an oracle producing an optional
    list of decoded values; everything the goldwarden code itself does
    with the decoded values is modelled exactly.
-/

namespace Goldwarden

/-- Byte strings: arbitrary byte sequences (including empty and non-UTF8). -/
abbrev ByteStr := List Nat

/-- Modelled from the spec: the 32-byte key derived by
argon2.Key(password, deviceUUID, KDFIterations, KDFMemory, KDFThreads, 32)
followed by hex(sha3.Sum256 _) where a digest is compared.  Idealized as the
injective pair of the inputs; distinct (pin, uuid) pairs give distinct keys
and distinct digests. -/
structure ConfigKey where
  pin : String
  uuid : String
deriving DecidableEq, Repr

/-- Contents of the LockedBuffer holding the config key: either the all-zero
32-byte buffer (fresh NewBuffer(32) or wiped), or a derived Argon2 key
(NewBufferFromBytes of a KDF output).  Idealized: a KDF output is never
all-zero. -/
inductive KeyBuf where
  | zero
  | derived (k : ConfigKey)
deriving DecidableEq, Repr

/-- One Encrypted* string field of the ConfigFile: the empty string, a valid
base64 ChaCha20-Poly1305 ciphertext produced under some key, or any other
string (base64-malformed or failing authentication under every key). -/
inductive EncField where
  | empty
  | ct (key : KeyBuf) (plain : ByteStr)
  | corrupt (tag : Nat)
deriving DecidableEq, Repr

/-- The persisted ConfigFile record (config.go), restricted to the fields the
lock state machine and the secret accessors read or write.  ConfigKeyHash
models the hex-encoded SHA3-256 digest string: none stands for the empty
string, some k for the digest of derived key k (digest idealized
injective). -/
structure ConfigFile where
  deviceUUID : String
  configKeyHash : Option ConfigKey
  encryptedToken : EncField
  encryptedUserSymmetricKey : EncField
  encryptedMasterPasswordHash : EncField
  encryptedMasterKey : EncField
  encryptedClientID : EncField
  encryptedClientSecret : EncField
deriving DecidableEq, Repr

/-- The in-memory Config: the guarded key buffer plus the persisted record
(the sync.Mutex and memguard flag carry no specification content). -/
structure Config where
  key : KeyBuf
  configFile : ConfigFile
deriving DecidableEq, Repr

/-- HasPin (config.go): ConfigKeyHash != "". -/
def HasPin (c : Config) : Bool :=
  c.configFile.configKeyHash.isSome

/-- IsLocked (config.go): bytes.Equal(key, make([]byte, 32)) && HasPin. -/
def IsLocked (c : Config) : Bool :=
  decide (c.key = KeyBuf.zero) && HasPin c

/-- IsLoggedIn (config.go): EncryptedMasterPasswordHash != "". -/
def IsLoggedIn (c : Config) : Bool :=
  decide (c.configFile.encryptedMasterPasswordHash ≠ EncField.empty)

/-- DefaultConfig (config.go): fresh zero key buffer, empty hash and empty
encrypted fields, a fresh device UUID (passed in here). -/
def DefaultConfig (uuid : String) : Config :=
  { key := KeyBuf.zero
    configFile :=
      { deviceUUID := uuid
        configKeyHash := none
        encryptedToken := EncField.empty
        encryptedUserSymmetricKey := EncField.empty
        encryptedMasterPasswordHash := EncField.empty
        encryptedMasterKey := EncField.empty
        encryptedClientID := EncField.empty
        encryptedClientSecret := EncField.empty } }

/-- encryptString (config.go): fail when locked, otherwise ChaCha20-Poly1305
encrypt under the current key bytes and base64-encode.  With a 32-byte key
the library encryption itself cannot fail, so the unlocked branch always
produces a ciphertext. -/
def encryptString (c : Config) (data : ByteStr) : Option EncField :=
  if IsLocked c then none
  else some (EncField.ct c.key data)

/-- decryptString (config.go): fail when locked; base64-decode, then
ChaCha20-Poly1305 decrypt under the current key bytes.  The empty string
decodes to zero bytes, which is shorter than nonce plus tag and fails; a
ciphertext authenticates only under the key it was produced under; any other
string fails. -/
def decryptString (c : Config) (data : EncField) : Option ByteStr :=
  if IsLocked c then none
  else
    match data with
    | EncField.empty => none
    | EncField.ct k p => if k = c.key then some p else none
    | EncField.corrupt _ => none

/-- Unlock (config.go): no-op success when not locked; otherwise derive the
candidate key from the password and the device UUID, compare its digest in
constant time with the stored ConfigKeyHash, and install it on match.
Returns the success flag and the resulting state. -/
def Unlock (c : Config) (password : String) : Bool × Config :=
  if ¬ IsLocked c then (true, c)
  else
    let key := ConfigKey.mk password c.configFile.deviceUUID
    if c.configFile.configKeyHash = some key then
      (true, { c with key := KeyBuf.derived key })
    else
      (false, c)

/-- VerifyPin (config.go): derive and compare the digest, mutating nothing. -/
def VerifyPin (c : Config) (password : String) : Bool :=
  decide (c.configFile.configKeyHash
    = some (ConfigKey.mk password c.configFile.deviceUUID))

/-- Lock (config.go): no-op when already locked, otherwise wipe the key
buffer to zero. -/
def Lock (c : Config) : Config :=
  if IsLocked c then c
  else { c with key := KeyBuf.zero }

/-- Purge (config.go): clear every encrypted field and the key hash and
install a fresh zero key buffer. -/
def Purge (c : Config) : Config :=
  { key := KeyBuf.zero
    configFile :=
      { c.configFile with
        configKeyHash := none
        encryptedToken := EncField.empty
        encryptedUserSymmetricKey := EncField.empty
        encryptedMasterPasswordHash := EncField.empty
        encryptedMasterKey := EncField.empty
        encryptedClientID := EncField.empty
        encryptedClientSecret := EncField.empty } }

/-- Re-encryption step of UpdatePin (config.go): a field whose decryption
under the old key succeeded is re-encrypted under the freshly installed key;
a field whose decryption failed is not assigned and keeps its old contents.
(The encryptString failure branch aborts UpdatePin in the source; it is
unreachable because the new key buffer is a nonzero derived key, so the
store is not locked and the library encryption cannot fail.) -/
def reencryptField (c2 : Config) (decrypted : Option ByteStr) (old : EncField) : EncField :=
  match decrypted with
  | none => old
  | some p =>
    match encryptString c2 p with
    | some e => e
    | none => old

/-- UpdatePin (config.go): derive the new key, install its digest as
ConfigKeyHash FIRST, then decrypt all six encrypted fields under the still
current key buffer (decryptString consults IsLocked, which already sees the
new hash), then install the new key buffer, then re-encrypt each field whose
decryption succeeded.  Persistence (WriteConfig) and the pin cache are
outside the model. -/
def UpdatePin (c : Config) (password : String) : Config :=
  let newKey := ConfigKey.mk password c.configFile.deviceUUID
  let c1 : Config :=
    { c with configFile := { c.configFile with configKeyHash := some newKey } }
  let p1 := decryptString c1 c1.configFile.encryptedToken
  let p2 := decryptString c1 c1.configFile.encryptedUserSymmetricKey
  let p3 := decryptString c1 c1.configFile.encryptedMasterPasswordHash
  let p4 := decryptString c1 c1.configFile.encryptedMasterKey
  let p5 := decryptString c1 c1.configFile.encryptedClientID
  let p6 := decryptString c1 c1.configFile.encryptedClientSecret
  let c2 : Config := { c1 with key := KeyBuf.derived newKey }
  { c2 with configFile :=
    { c2.configFile with
      encryptedToken := reencryptField c2 p1 c2.configFile.encryptedToken
      encryptedUserSymmetricKey :=
        reencryptField c2 p2 c2.configFile.encryptedUserSymmetricKey
      encryptedMasterPasswordHash :=
        reencryptField c2 p3 c2.configFile.encryptedMasterPasswordHash
      encryptedMasterKey := reencryptField c2 p4 c2.configFile.encryptedMasterKey
      encryptedClientID := reencryptField c2 p5 c2.configFile.encryptedClientID
      encryptedClientSecret :=
        reencryptField c2 p6 c2.configFile.encryptedClientSecret } }

/-- Errors surfaced by the secret-field accessors. -/
inductive CfgError where
  | configLocked
  | decryptFailure
deriving DecidableEq, Repr

/-- GetToken (config.go): fail with the locked error when locked, otherwise
decrypt EncryptedToken.  The subsequent json.Unmarshal of the decrypted
bytes into a LoginToken is Go standard library code outside the model; the
model returns the decrypted token JSON bytes. -/
def GetToken (c : Config) : Except CfgError ByteStr :=
  if IsLocked c then Except.error CfgError.configLocked
  else
    match decryptString c c.configFile.encryptedToken with
    | none => Except.error CfgError.decryptFailure
    | some s => Except.ok s

/-- SetToken (config.go): fail when locked, otherwise encrypt the marshalled
token JSON and store it.  json.Marshal is outside the model; the setter
receives the serialized token bytes. -/
def SetToken (c : Config) (tokenJson : ByteStr) : Except CfgError Config :=
  if IsLocked c then Except.error CfgError.configLocked
  else
    match encryptString c tokenJson with
    | none => Except.error CfgError.decryptFailure
    | some e =>
      Except.ok { c with configFile := { c.configFile with encryptedToken := e } }

/-- GetClientID (config.go): fail when locked; return the empty string with
no error when the encrypted field is the empty string; otherwise decrypt. -/
def GetClientID (c : Config) : Except CfgError ByteStr :=
  if IsLocked c then Except.error CfgError.configLocked
  else if c.configFile.encryptedClientID = EncField.empty then Except.ok []
  else
    match decryptString c c.configFile.encryptedClientID with
    | none => Except.error CfgError.decryptFailure
    | some s => Except.ok s

/-- SetClientID (config.go): fail when locked; the empty string clears the
field; otherwise encrypt and store. -/
def SetClientID (c : Config) (clientID : ByteStr) : Except CfgError Config :=
  if IsLocked c then Except.error CfgError.configLocked
  else if clientID = [] then
    Except.ok
      { c with configFile := { c.configFile with encryptedClientID := EncField.empty } }
  else
    match encryptString c clientID with
    | none => Except.error CfgError.decryptFailure
    | some e =>
      Except.ok { c with configFile := { c.configFile with encryptedClientID := e } }

/-- GetClientSecret (config.go): same shape as GetClientID. -/
def GetClientSecret (c : Config) : Except CfgError ByteStr :=
  if IsLocked c then Except.error CfgError.configLocked
  else if c.configFile.encryptedClientSecret = EncField.empty then Except.ok []
  else
    match decryptString c c.configFile.encryptedClientSecret with
    | none => Except.error CfgError.decryptFailure
    | some s => Except.ok s

/-- SetClientSecret (config.go): same shape as SetClientID. -/
def SetClientSecret (c : Config) (clientSecret : ByteStr) : Except CfgError Config :=
  if IsLocked c then Except.error CfgError.configLocked
  else if clientSecret = [] then
    Except.ok
      { c with configFile :=
        { c.configFile with encryptedClientSecret := EncField.empty } }
  else
    match encryptString c clientSecret with
    | none => Except.error CfgError.decryptFailure
    | some e =>
      Except.ok
        { c with configFile := { c.configFile with encryptedClientSecret := e } }

/-- GetUserSymmetricKey (config.go): fail when locked, otherwise decrypt the
field unconditionally (no empty-string special case). -/
def GetUserSymmetricKey (c : Config) : Except CfgError ByteStr :=
  if IsLocked c then Except.error CfgError.configLocked
  else
    match decryptString c c.configFile.encryptedUserSymmetricKey with
    | none => Except.error CfgError.decryptFailure
    | some s => Except.ok s

/-- SetUserSymmetricKey (config.go): fail when locked, otherwise encrypt and
store. -/
def SetUserSymmetricKey (c : Config) (keyBytes : ByteStr) : Except CfgError Config :=
  if IsLocked c then Except.error CfgError.configLocked
  else
    match encryptString c keyBytes with
    | none => Except.error CfgError.decryptFailure
    | some e =>
      Except.ok
        { c with configFile :=
          { c.configFile with encryptedUserSymmetricKey := e } }

/-- GetMasterPasswordHash (config.go): fail when locked, otherwise decrypt
the field unconditionally. -/
def GetMasterPasswordHash (c : Config) : Except CfgError ByteStr :=
  if IsLocked c then Except.error CfgError.configLocked
  else
    match decryptString c c.configFile.encryptedMasterPasswordHash with
    | none => Except.error CfgError.decryptFailure
    | some s => Except.ok s

/-- SetMasterPasswordHash (config.go): fail when locked, otherwise encrypt
and store. -/
def SetMasterPasswordHash (c : Config) (hash : ByteStr) : Except CfgError Config :=
  if IsLocked c then Except.error CfgError.configLocked
  else
    match encryptString c hash with
    | none => Except.error CfgError.decryptFailure
    | some e =>
      Except.ok
        { c with configFile :=
          { c.configFile with encryptedMasterPasswordHash := e } }

/-- GetMasterKey (config.go): fail when locked, otherwise decrypt the field
unconditionally. -/
def GetMasterKey (c : Config) : Except CfgError ByteStr :=
  if IsLocked c then Except.error CfgError.configLocked
  else
    match decryptString c c.configFile.encryptedMasterKey with
    | none => Except.error CfgError.decryptFailure
    | some s => Except.ok s

/-- SetMasterKey (config.go): fail when locked, otherwise encrypt and
store. -/
def SetMasterKey (c : Config) (keyBytes : ByteStr) : Except CfgError Config :=
  if IsLocked c then Except.error CfgError.configLocked
  else
    match encryptString c keyBytes with
    | none => Except.error CfgError.decryptFailure
    | some e =>
      Except.ok
        { c with configFile := { c.configFile with encryptedMasterKey := e } }

/-! Vault state and sync engine. -/

/-- Cipher item types (models package): CipherLogin = 1, CipherCard = 3,
CipherIdentity = 4, CipherNote = 2, CipherSSHKey = 5. -/
inductive CipherType where
  | login
  | note
  | card
  | identity
  | sshKey
deriving DecidableEq, Repr

/-- A decrypted vault item as the sync engine sees it: its remote id, its
type, whether its DeletedDate is the zero time (DeletedDate.IsZero()), and
its remaining decrypted fields, opaque to the sync logic. -/
structure Cipher where
  id : String
  ty : CipherType
  deletedDateZero : Bool
  fields : ByteStr
deriving DecidableEq, Repr

/-- Modelled from the spec: VaultState, the in-memory collection of
decrypted vault items keyed by item id, with separate collections for
logins, secure notes and SSH keys, plus the last-synced timestamp.  The
vault package itself is not under src/; only its callers are. -/
structure Vault where
  logins : List (String × Cipher)
  secureNotes : List (String × Cipher)
  sshKeys : List (String × Cipher)
  lastSynced : Int
deriving DecidableEq, Repr

/-- Modelled from the spec: idempotent upsert keyed by item id; re-adding an
id overwrites in place, a new id is appended. -/
def upsertAssoc (m : List (String × Cipher)) (i : String) (c : Cipher) :
    List (String × Cipher) :=
  if m.any (fun p => p.1 = i) then
    m.map (fun p => if p.1 = i then (i, c) else p)
  else
    m ++ [(i, c)]

/-- Modelled from the spec: vault.AddOrUpdateLogin, upsert into the login
collection by id. -/
def AddOrUpdateLogin (v : Vault) (c : Cipher) : Vault :=
  { v with logins := upsertAssoc v.logins c.id c }

/-- Modelled from the spec: vault.AddOrUpdateSecureNote, upsert into the
secure-note collection by id. -/
def AddOrUpdateSecureNote (v : Vault) (c : Cipher) : Vault :=
  { v with secureNotes := upsertAssoc v.secureNotes c.id c }

/-- Modelled from the spec: vault.AddOrUpdateSSHKey, upsert into the SSH-key
collection by id. -/
def AddOrUpdateSSHKey (v : Vault) (c : Cipher) : Vault :=
  { v with sshKeys := upsertAssoc v.sshKeys c.id c }

/-- Modelled from the spec: vault.DeleteCipher, remove the id from
VaultState; a missing id is not an error (idempotent delete). -/
def DeleteCipher (v : Vault) (i : String) : Vault :=
  { v with
    logins := v.logins.filter (fun p => p.1 ≠ i)
    secureNotes := v.secureNotes.filter (fun p => p.1 ≠ i)
    sshKeys := v.sshKeys.filter (fun p => p.1 ≠ i) }

/-- Modelled from the spec: vault.Clear, clearing VaultState entirely. -/
def ClearVault (v : Vault) : Vault :=
  { v with logins := [], secureNotes := [], sshKeys := [] }

/-- Modelled from the spec: vault.SetLastSynced, stamping the last-synced
timestamp. -/
def SetLastSynced (v : Vault) (t : Int) : Vault :=
  { v with lastSynced := t }

/-- The part of the SyncData snapshot DoFullSync materializes: the cipher
list.  Profile organization keys are read into a map but are informational
only (used solely for keyring initialization, skipped when no user symmetric
key is passed, as on the websocket path). -/
structure SyncData where
  ciphers : List Cipher
deriving DecidableEq, Repr

/-- The per-cipher dispatch of DoFullSync (sync.go): switch cipher.Type,
upserting into the matching collection; other types are not materialized. -/
def fullSyncStep (v : Vault) (c : Cipher) : Vault :=
  match c.ty with
  | CipherType.login => AddOrUpdateLogin v c
  | CipherType.note => AddOrUpdateSecureNote v c
  | CipherType.sshKey => AddOrUpdateSSHKey v c
  | _ => v

/-- DoFullSync (sync.go), success path, given the fetched snapshot: clear
the vault, stamp the last-synced timestamp with the current time, then
upsert every cipher from the snapshot dispatching on its type.  The fetch
itself and keyring initialization are external. -/
def DoFullSync (v : Vault) (sync : SyncData) (now : Int) : Vault :=
  (sync.ciphers).foldl fullSyncStep (SetLastSynced (ClearVault v) now)

/-! Websocket push events. -/

/-- NotificationMessageType (websocket file): the message-type enum. -/
inductive NotificationMessageType where
  | syncCipherUpdate
  | syncCipherCreate
  | syncLoginDelete
  | syncFolderDelete
  | syncCiphers
  | syncVault
  | syncOrgKeys
  | syncFolderCreate
  | syncFolderUpdate
  | syncCipherDelete
  | syncSettings
  | logOut
  | syncSendCreate
  | syncSendUpdate
  | syncSendDelete
  | authRequest
  | authRequestResponse
  | unknown (n : Int)
deriving DecidableEq, Repr

/-- Result of the external single-item fetch GetCipher. -/
inductive FetchResult where
  | ok (c : Cipher)
  | fetchError
deriving DecidableEq, Repr

/-- The VaultState effect of the per-cipher branches of the reader switch in
connectToWebsocket: SyncCipherDelete deletes by id; SyncCipherUpdate fetches
the item, deletes it when its DeletedDate is non-zero (no timestamp update),
and otherwise upserts by type and stamps the last-synced timestamp;
SyncCipherCreate fetches the item and unconditionally upserts by type and
stamps the timestamp.  tokenOk models whether cfg.GetToken succeeded (on
failure the branch logs and breaks without touching the vault); fetch models
GetCipher.  Branches that do not mutate per-item vault state here (full
sync, sends, folders, org keys, logout, auth requests) leave the vault
unchanged in this function; the full-sync branch is modelled separately by
DoFullSync. -/
def applyCipherEvent (v : Vault) (mt : NotificationMessageType) (tokenOk : Bool)
    (fetch : String → FetchResult) (cipherid : String) (now : Int) : Vault :=
  match mt with
  | NotificationMessageType.syncCipherDelete => DeleteCipher v cipherid
  | NotificationMessageType.syncCipherUpdate =>
    if ¬ tokenOk then v
    else
      match fetch cipherid with
      | FetchResult.fetchError => v
      | FetchResult.ok cipher =>
        if ¬ cipher.deletedDateZero then DeleteCipher v cipherid
        else
          SetLastSynced
            (if cipher.ty = CipherType.note then AddOrUpdateSecureNote v cipher
             else AddOrUpdateLogin v cipher) now
  | NotificationMessageType.syncCipherCreate =>
    if ¬ tokenOk then v
    else
      match fetch cipherid with
      | FetchResult.fetchError => v
      | FetchResult.ok cipher =>
        SetLastSynced
          (if cipher.ty = CipherType.note then AddOrUpdateSecureNote v cipher
           else AddOrUpdateLogin v cipher) now
  | _ => v

/-! Websocket frame decoding. -/

/-- A Go interface value as produced by the msgpack DecodeSlice library
call: nil, a small integer decoded as int8, a string, a nested array, a
string-keyed map, or any other decoded Go value (wider integers, floats,
booleans, non-string-keyed maps, binary). -/
inductive MsgVal where
  | nil
  | int (i : Int)
  | str (s : String)
  | arr (xs : List MsgVal)
  | map (m : List (String × MsgVal))
  | other (tag : Nat)

/-- Key strings used by the decoder. -/
def keyType : String := "Type"

/-- Payload key string. -/
def keyPayload : String := "Payload"

/-- Id key string. -/
def keyId : String := "Id"

/-- parseMessageTypeFromMessagePack (websocket file), applied to the result
of the library DecodeSlice call (none models a decode error or nil result).
Returns some (messageType, cipherId, success) following the Go returns; the
result none models the one place the Go code can panic: when a Payload map
has an Id key whose value is not a string, the final expression performs the
unchecked type assertion payload[Id].(string) and crashes.  All other
checks are comma-ok asserted and return (0, empty, false):
  * nil value or decode error, or fewer than 5 top-level elements;
  * element 4 not an array, or an empty array;
  * first element of that array not a string-keyed map;
  * no Type key, or a Type value that is not an int8;
  * a Payload map present but with no Id key.
A map whose Payload key is absent or not a map returns (type, empty, true). -/
def parseMessageTypeFromMessagePack (decoded : Option (List MsgVal)) :
    Option (Int × String × Bool) :=
  match decoded with
  | some (_ :: _ :: _ :: _ :: MsgVal.arr (MsgVal.map m :: _) :: _) =>
    (match m.lookup keyType with
     | some (MsgVal.int t) =>
       (match m.lookup keyPayload with
        | some (MsgVal.map p) =>
          (match p.lookup keyId with
           | some (MsgVal.str s) => some (t, s, true)
           | some _ => none
           | none => some (0, "", false))
        | _ => some (t, "", true))
     | _ => some (0, "", false))
  | _ => some (0, "", false)

/-- The shape on which the Go decoder panics: a structurally well-formed
message (5 or more top-level elements, element 4 a nonempty array whose
first element is a map with an int8 Type key) whose Payload map contains an
Id key bound to a non-string value. -/
def idNotStringShape (decoded : Option (List MsgVal)) : Bool :=
  match decoded with
  | some (_ :: _ :: _ :: _ :: MsgVal.arr (MsgVal.map m :: _) :: _) =>
    (match m.lookup keyType with
     | some (MsgVal.int _) =>
       (match m.lookup keyPayload with
        | some (MsgVal.map p) =>
          (match p.lookup keyId with
           | some (MsgVal.str _) => false
           | some _ => true
           | none => false)
        | _ => false)
     | _ => false)
  | _ => false

/-- The length-prefix strip in websocketMessageType (websocket file): scan
for the first byte whose high bit is clear and drop everything up to and
including it; when every byte has the high bit set, lenBufferLen stays 0
and nothing is dropped. -/
def stripLengthHeader (message : List Nat) : List Nat :=
  let lenBufferLen :=
    match message.findIdx? (fun b => b &&& 128 == 0) with
    | some i => i + 1
    | none => 0
  message.drop lenBufferLen

/-- websocketMessageType (websocket file): strip the length prefix and parse
the remaining payload, whose byte-level msgpack decoding is the oracle
dec. -/
def websocketMessageType (dec : List Nat → Option (List MsgVal))
    (message : List Nat) : Option (Int × String × Bool) :=
  parseMessageTypeFromMessagePack (dec (stripLengthHeader message))

/-- Outcome of the reader loop body for one received frame. -/
inductive FrameAction where
  | skip
  | dispatch (t : Int) (cipherid : String)
  | crash
deriving DecidableEq, Repr

/-- One iteration of the reader loop in connectToWebsocket, for one frame
read off the socket: frames shorter than 5 bytes are skipped as keep-alives;
otherwise the frame is deframed and decoded; a failed decode is logged and
skipped, keeping the loop alive; a successful decode dispatches the event
switch; the unchecked Id assertion panics, modelled as crash. -/
def handleFrame (dec : List Nat → Option (List MsgVal)) (message : List Nat) :
    FrameAction :=
  if message.length < 5 then FrameAction.skip
  else
    match websocketMessageType dec message with
    | none => FrameAction.crash
    | some (t, i, true) => FrameAction.dispatch t i
    | some (_, _, false) => FrameAction.skip

/-! Concrete data for witnesses and counterexamples. -/

/-- A concrete device UUID. -/
def uuid0 : String := "device-uuid-0"

/-- A concrete PIN. -/
def pin0 : String := "1234"

/-- A second, distinct concrete PIN. -/
def pin1 : String := "5678"

/-- A concrete cipher id. -/
def idAbc : String := "abc"

/-- A locked store: zero key with a configured key hash for pin0. -/
def c7locked : Config :=
  { key := KeyBuf.zero
    configFile :=
      { deviceUUID := uuid0
        configKeyHash := some (ConfigKey.mk pin0 uuid0)
        encryptedToken := EncField.ct (KeyBuf.derived (ConfigKey.mk pin0 uuid0)) [1, 2]
        encryptedUserSymmetricKey := EncField.empty
        encryptedMasterPasswordHash := EncField.empty
        encryptedMasterKey := EncField.empty
        encryptedClientID := EncField.empty
        encryptedClientSecret := EncField.empty } }

/-- The intermediate store state inside UpdatePin after the new key hash has
been installed but before the key buffer changes: the decrypt-all pass of
UpdatePin runs against exactly this state. -/
def withNewHash (c : Config) (p : String) : Config :=
  { c with configFile :=
    { c.configFile with
      configKeyHash := some (ConfigKey.mk p c.configFile.deviceUUID) } }

/-- An unlocked store carrying a PIN: derived key installed, matching hash,
and an undecryptable (corrupt) encrypted token field. -/
def c3cfg : Config :=
  { key := KeyBuf.derived (ConfigKey.mk pin0 uuid0)
    configFile :=
      { deviceUUID := uuid0
        configKeyHash := some (ConfigKey.mk pin0 uuid0)
        encryptedToken := EncField.corrupt 0
        encryptedUserSymmetricKey := EncField.empty
        encryptedMasterPasswordHash := EncField.empty
        encryptedMasterKey := EncField.empty
        encryptedClientID := EncField.empty
        encryptedClientSecret := EncField.empty } }

/-- An unlocked store carrying a PIN with a decryptable encrypted token. -/
def c3good : Config :=
  { key := KeyBuf.derived (ConfigKey.mk pin0 uuid0)
    configFile :=
      { deviceUUID := uuid0
        configKeyHash := some (ConfigKey.mk pin0 uuid0)
        encryptedToken := EncField.ct (KeyBuf.derived (ConfigKey.mk pin0 uuid0)) [9, 8]
        encryptedUserSymmetricKey := EncField.empty
        encryptedMasterPasswordHash := EncField.empty
        encryptedMasterKey := EncField.empty
        encryptedClientID := EncField.empty
        encryptedClientSecret := EncField.empty } }

/-- A first-run no-PIN store: zero key, no key hash, and a token that was
encrypted while unlocked in this mode, hence under the zero key. -/
def c6cfg : Config :=
  { key := KeyBuf.zero
    configFile :=
      { deviceUUID := uuid0
        configKeyHash := none
        encryptedToken := EncField.ct KeyBuf.zero [1, 2, 3]
        encryptedUserSymmetricKey := EncField.empty
        encryptedMasterPasswordHash := EncField.empty
        encryptedMasterKey := EncField.empty
        encryptedClientID := EncField.empty
        encryptedClientSecret := EncField.empty } }

/-- The empty vault. -/
def emptyVault : Vault :=
  { logins := [], secureNotes := [], sshKeys := [], lastSynced := 0 }

/-- A login cipher whose remote state has a non-zero DeletedDate. -/
def cipherDeleted : Cipher :=
  { id := idAbc, ty := CipherType.login, deletedDateZero := false, fields := [7] }

/-- A single-item fetch oracle answering every id with the trashed login. -/
def fetchDeleted : String → FetchResult :=
  fun _ => FetchResult.ok cipherDeleted

/-- A Payload map whose Id key is bound to a non-string value. -/
def badPayloadMap : List (String × MsgVal) :=
  [(keyId, MsgVal.int 5)]

/-- A structurally well-formed event map with the bad Payload. -/
def badTypeMap : List (String × MsgVal) :=
  [(keyType, MsgVal.int 1), (keyPayload, MsgVal.map badPayloadMap)]

/-- A decoded payload on which the Go decoder hits the unchecked Id string
assertion. -/
def badDecoded : Option (List MsgVal) :=
  some [MsgVal.nil, MsgVal.nil, MsgVal.nil, MsgVal.nil,
    MsgVal.arr [MsgVal.map badTypeMap]]

/-- A msgpack decode oracle returning the bad payload for every input. -/
def badDec : List Nat → Option (List MsgVal) :=
  fun _ => badDecoded

/-- A frame of five or more bytes (first byte has a clear high bit, so one
length-prefix byte is stripped). -/
def badFrame : List Nat := [0, 1, 2, 3, 4, 5]

/-- A decoded payload representing a well-formed event with a string Id. -/
def goodDecoded : Option (List MsgVal) :=
  some [MsgVal.nil, MsgVal.nil, MsgVal.nil, MsgVal.nil,
    MsgVal.arr [MsgVal.map
      [(keyType, MsgVal.int 9), (keyPayload, MsgVal.map [(keyId, MsgVal.str idAbc)])]]]

/-! Claim theorems. -/

/-- Claim C8: for every store state, the store reports locked exactly when
the config key buffer is all-zero and a config-key-hash is set; a store with
no config-key-hash reports IsLocked false immediately after construction. -/
theorem C8_lock_state_derived :
    (∀ c : Config, IsLocked c = true ↔
      (c.key = KeyBuf.zero ∧ c.configFile.configKeyHash.isSome = true)) ∧
    (∀ uuid : String, IsLocked (DefaultConfig uuid) = false) := by
  constructor
  · intro c
    simp [IsLocked, HasPin]
  · intro uuid
    simp [IsLocked, HasPin, DefaultConfig]

/-- Claim C4: while locked, unlock(p) succeeds exactly when the digest of
the key derived from p (KDF keyed by the device identifier) equals the
stored config-key-hash; on mismatch the store stays locked, is unchanged and
unlock returns failure; when already unlocked, unlock(p) is a no-op
success. -/
theorem C4_unlock_iff (c : Config) (p : String) :
    (IsLocked c = true →
      ((Unlock c p).1 = true ↔
        c.configFile.configKeyHash
          = some (ConfigKey.mk p c.configFile.deviceUUID)) ∧
      (c.configFile.configKeyHash
          ≠ some (ConfigKey.mk p c.configFile.deviceUUID) →
        Unlock c p = (false, c) ∧ IsLocked (Unlock c p).2 = true)) ∧
    (IsLocked c = false → Unlock c p = (true, c)) := by
  constructor
  · intro hl
    constructor
    · by_cases hh : c.configFile.configKeyHash
          = some (ConfigKey.mk p c.configFile.deviceUUID)
      · simp [Unlock, hl, hh]
      · simp [Unlock, hl, hh]
    · intro hh
      have hu : Unlock c p = (false, c) := by
        simp [Unlock, hl, hh]
      exact ⟨hu, by rw [hu]; exact hl⟩
  · intro hl
    simp [Unlock, hl]

/-- Witness for C4: the locked store c7locked unlocks with pin0 exactly
because its stored hash is the digest of the pin0-derived key, fails and
stays put under pin1, and an unlocked fresh store accepts any pin as a
no-op. -/
theorem C4_unlock_iff_witness :
    ((Unlock c7locked pin0).1 = true ↔
      c7locked.configFile.configKeyHash
        = some (ConfigKey.mk pin0 c7locked.configFile.deviceUUID)) ∧
    Unlock c7locked pin1 = (false, c7locked) ∧
    Unlock (DefaultConfig uuid0) pin1 = (true, DefaultConfig uuid0) :=
  ⟨((C4_unlock_iff c7locked pin0).1 (by decide)).1,
   (((C4_unlock_iff c7locked pin1).1 (by decide)).2 (by decide)).1,
   (C4_unlock_iff (DefaultConfig uuid0) pin1).2 (by decide)⟩

/-- Claim C5: for every byte string, including the empty one, encrypting
while unlocked and decrypting the result under the same unchanged config key
returns the original byte string. -/
theorem C5_roundtrip (c : Config) (p : ByteStr) (h : IsLocked c = false) :
    ∃ e : EncField, encryptString c p = some e ∧ decryptString c e = some p := by
  refine ⟨EncField.ct c.key p, ?_, ?_⟩
  · simp [encryptString, h]
  · simp [decryptString, h]

/-- Witness for C5: the round trip on a concrete non-UTF8 byte string and on
the empty byte string, in a fresh unlocked store. -/
theorem C5_roundtrip_witness :
    (∃ e, encryptString (DefaultConfig uuid0) [0, 255, 1] = some e ∧
      decryptString (DefaultConfig uuid0) e = some [0, 255, 1]) ∧
    (∃ e, encryptString (DefaultConfig uuid0) [] = some e ∧
      decryptString (DefaultConfig uuid0) e = some []) :=
  ⟨C5_roundtrip (DefaultConfig uuid0) [0, 255, 1] (by decide),
   C5_roundtrip (DefaultConfig uuid0) [] (by decide)⟩

/-- Claim C7: while the store is locked, every secret-field getter and
setter fails with the ConfigLocked error and produces no updated record. -/
theorem C7_locked_accessors (c : Config) (h : IsLocked c = true) :
    GetToken c = Except.error CfgError.configLocked ∧
    (∀ t, SetToken c t = Except.error CfgError.configLocked) ∧
    GetClientID c = Except.error CfgError.configLocked ∧
    (∀ s, SetClientID c s = Except.error CfgError.configLocked) ∧
    GetClientSecret c = Except.error CfgError.configLocked ∧
    (∀ s, SetClientSecret c s = Except.error CfgError.configLocked) ∧
    GetUserSymmetricKey c = Except.error CfgError.configLocked ∧
    (∀ s, SetUserSymmetricKey c s = Except.error CfgError.configLocked) ∧
    GetMasterPasswordHash c = Except.error CfgError.configLocked ∧
    (∀ s, SetMasterPasswordHash c s = Except.error CfgError.configLocked) ∧
    GetMasterKey c = Except.error CfgError.configLocked ∧
    (∀ s, SetMasterKey c s = Except.error CfgError.configLocked) := by
  refine ⟨?_, ?_, ?_, ?_, ?_, ?_, ?_, ?_, ?_, ?_, ?_, ?_⟩ <;>
    (try intro s) <;>
    simp [GetToken, SetToken, GetClientID, SetClientID, GetClientSecret,
      SetClientSecret, GetUserSymmetricKey, SetUserSymmetricKey,
      GetMasterPasswordHash, SetMasterPasswordHash, GetMasterKey,
      SetMasterKey, h]

/-- Witness for C7: a concrete locked store fails a getter and a setter with
the ConfigLocked error. -/
theorem C7_locked_accessors_witness :
    GetToken c7locked = Except.error CfgError.configLocked ∧
    SetClientID c7locked [1] = Except.error CfgError.configLocked :=
  ⟨(C7_locked_accessors c7locked (by decide)).1,
   (C7_locked_accessors c7locked (by decide)).2.2.2.1 [1]⟩

/-- Claim C10: while unlocked, GetClientID and GetClientSecret return the
empty string without error when their encrypted field is empty, whereas
GetToken, GetUserSymmetricKey, GetMasterPasswordHash and GetMasterKey
attempt to decrypt the empty field and return a decryption error. -/
theorem C10_empty_field_getters (c : Config) (h : IsLocked c = false) :
    (c.configFile.encryptedClientID = EncField.empty →
      GetClientID c = Except.ok []) ∧
    (c.configFile.encryptedClientSecret = EncField.empty →
      GetClientSecret c = Except.ok []) ∧
    (c.configFile.encryptedToken = EncField.empty →
      GetToken c = Except.error CfgError.decryptFailure) ∧
    (c.configFile.encryptedUserSymmetricKey = EncField.empty →
      GetUserSymmetricKey c = Except.error CfgError.decryptFailure) ∧
    (c.configFile.encryptedMasterPasswordHash = EncField.empty →
      GetMasterPasswordHash c = Except.error CfgError.decryptFailure) ∧
    (c.configFile.encryptedMasterKey = EncField.empty →
      GetMasterKey c = Except.error CfgError.decryptFailure) := by
  refine ⟨?_, ?_, ?_, ?_, ?_, ?_⟩ <;> intro he <;>
    simp [GetClientID, GetClientSecret, GetToken, GetUserSymmetricKey,
      GetMasterPasswordHash, GetMasterKey, decryptString, h, he]

/-- Witness for C10: a fresh unlocked store with all fields empty returns an
empty client id without error but a decryption error for the token. -/
theorem C10_empty_field_getters_witness :
    GetClientID (DefaultConfig uuid0) = Except.ok [] ∧
    GetToken (DefaultConfig uuid0) = Except.error CfgError.decryptFailure :=
  ⟨(C10_empty_field_getters (DefaultConfig uuid0) (by decide)).1 (by decide),
   (C10_empty_field_getters (DefaultConfig uuid0) (by decide)).2.2.1 (by decide)⟩

/-! Helper lemmas about UpdatePin and the envelope cipher. -/

/-- decryptString succeeds exactly on a ciphertext under the current key of
an unlocked store, returning its plaintext. -/
theorem decryptString_some_iff (c : Config) (f : EncField) (pt : ByteStr) :
    decryptString c f = some pt ↔
      (IsLocked c = false ∧ f = EncField.ct c.key pt) := by
  unfold decryptString
  by_cases h : IsLocked c
  · simp [h]
  · simp only [Bool.not_eq_true] at h
    simp only [h, Bool.false_eq_true, if_false, true_and]
    cases f with
    | empty => simp
    | ct k q =>
      by_cases hk : k = c.key
      · subst hk
        simp [EncField.ct.injEq]
      · simp [hk, EncField.ct.injEq]
    | corrupt t => simp

/-- The token field after UpdatePin is the re-encryption step applied to the
decrypt-all result, taken in the intermediate state with the new hash. -/
theorem updatePin_token_eq (c : Config) (p : String) :
    (UpdatePin c p).configFile.encryptedToken
      = reencryptField
          { withNewHash c p with
            key := KeyBuf.derived (ConfigKey.mk p c.configFile.deviceUUID) }
          (decryptString (withNewHash c p) c.configFile.encryptedToken)
          c.configFile.encryptedToken := rfl

/-- Same shape for the user symmetric key field. -/
theorem updatePin_userSym_eq (c : Config) (p : String) :
    (UpdatePin c p).configFile.encryptedUserSymmetricKey
      = reencryptField
          { withNewHash c p with
            key := KeyBuf.derived (ConfigKey.mk p c.configFile.deviceUUID) }
          (decryptString (withNewHash c p) c.configFile.encryptedUserSymmetricKey)
          c.configFile.encryptedUserSymmetricKey := rfl

/-- Same shape for the master password hash field. -/
theorem updatePin_masterPw_eq (c : Config) (p : String) :
    (UpdatePin c p).configFile.encryptedMasterPasswordHash
      = reencryptField
          { withNewHash c p with
            key := KeyBuf.derived (ConfigKey.mk p c.configFile.deviceUUID) }
          (decryptString (withNewHash c p) c.configFile.encryptedMasterPasswordHash)
          c.configFile.encryptedMasterPasswordHash := rfl

/-- Same shape for the master key field. -/
theorem updatePin_masterKey_eq (c : Config) (p : String) :
    (UpdatePin c p).configFile.encryptedMasterKey
      = reencryptField
          { withNewHash c p with
            key := KeyBuf.derived (ConfigKey.mk p c.configFile.deviceUUID) }
          (decryptString (withNewHash c p) c.configFile.encryptedMasterKey)
          c.configFile.encryptedMasterKey := rfl

/-- Same shape for the client id field. -/
theorem updatePin_clientID_eq (c : Config) (p : String) :
    (UpdatePin c p).configFile.encryptedClientID
      = reencryptField
          { withNewHash c p with
            key := KeyBuf.derived (ConfigKey.mk p c.configFile.deviceUUID) }
          (decryptString (withNewHash c p) c.configFile.encryptedClientID)
          c.configFile.encryptedClientID := rfl

/-- Same shape for the client secret field. -/
theorem updatePin_clientSecret_eq (c : Config) (p : String) :
    (UpdatePin c p).configFile.encryptedClientSecret
      = reencryptField
          { withNewHash c p with
            key := KeyBuf.derived (ConfigKey.mk p c.configFile.deviceUUID) }
          (decryptString (withNewHash c p) c.configFile.encryptedClientSecret)
          c.configFile.encryptedClientSecret := rfl

/-- A store whose key buffer holds a derived key is never locked. -/
theorem isLocked_derived (c : Config) (k : ConfigKey)
    (h : c.key = KeyBuf.derived k) : IsLocked c = false := by
  simp [IsLocked, h]

/-- Re-encryption of a successfully decrypted plaintext in an unlocked store
yields a ciphertext under the current key. -/
theorem reencryptField_some (c : Config) (pt : ByteStr) (old : EncField)
    (h : IsLocked c = false) :
    reencryptField c (some pt) old = EncField.ct c.key pt := by
  simp [reencryptField, encryptString, h]

/-- Re-encryption after a failed decryption keeps the old field contents. -/
theorem reencryptField_none (c : Config) (old : EncField) :
    reencryptField c none old = old := rfl

/-- Counterexample to claim C3 as stated: an unlocked store whose encrypted
token does not decrypt under the old key; after UpdatePin the token field
still holds the old undecryptable ciphertext instead of being left empty. -/
theorem C3_counterexample :
    IsLocked c3cfg = false ∧
    decryptString c3cfg c3cfg.configFile.encryptedToken = none ∧
    (UpdatePin c3cfg pin1).configFile.encryptedToken = EncField.corrupt 0 ∧
    (UpdatePin c3cfg pin1).configFile.encryptedToken ≠ EncField.empty := by
  decide

/-- Amended claim C3: after UpdatePin(newPin), every field that decrypted
successfully in the decrypt-all pass (run with the new key hash already
installed) is re-encrypted under the new key, and every field whose
decryption failed retains its previous stored contents unchanged (the old
ciphertext is kept, not emptied). -/
theorem C3_update_pin_disposition (c : Config) (p : String) :
    ((∀ pt, decryptString (withNewHash c p) c.configFile.encryptedToken = some pt →
      (UpdatePin c p).configFile.encryptedToken
        = EncField.ct (KeyBuf.derived (ConfigKey.mk p c.configFile.deviceUUID)) pt) ∧
     (decryptString (withNewHash c p) c.configFile.encryptedToken = none →
      (UpdatePin c p).configFile.encryptedToken = c.configFile.encryptedToken)) ∧
    ((∀ pt, decryptString (withNewHash c p) c.configFile.encryptedUserSymmetricKey = some pt →
      (UpdatePin c p).configFile.encryptedUserSymmetricKey
        = EncField.ct (KeyBuf.derived (ConfigKey.mk p c.configFile.deviceUUID)) pt) ∧
     (decryptString (withNewHash c p) c.configFile.encryptedUserSymmetricKey = none →
      (UpdatePin c p).configFile.encryptedUserSymmetricKey
        = c.configFile.encryptedUserSymmetricKey)) ∧
    ((∀ pt, decryptString (withNewHash c p) c.configFile.encryptedMasterPasswordHash = some pt →
      (UpdatePin c p).configFile.encryptedMasterPasswordHash
        = EncField.ct (KeyBuf.derived (ConfigKey.mk p c.configFile.deviceUUID)) pt) ∧
     (decryptString (withNewHash c p) c.configFile.encryptedMasterPasswordHash = none →
      (UpdatePin c p).configFile.encryptedMasterPasswordHash
        = c.configFile.encryptedMasterPasswordHash)) ∧
    ((∀ pt, decryptString (withNewHash c p) c.configFile.encryptedMasterKey = some pt →
      (UpdatePin c p).configFile.encryptedMasterKey
        = EncField.ct (KeyBuf.derived (ConfigKey.mk p c.configFile.deviceUUID)) pt) ∧
     (decryptString (withNewHash c p) c.configFile.encryptedMasterKey = none →
      (UpdatePin c p).configFile.encryptedMasterKey = c.configFile.encryptedMasterKey)) ∧
    ((∀ pt, decryptString (withNewHash c p) c.configFile.encryptedClientID = some pt →
      (UpdatePin c p).configFile.encryptedClientID
        = EncField.ct (KeyBuf.derived (ConfigKey.mk p c.configFile.deviceUUID)) pt) ∧
     (decryptString (withNewHash c p) c.configFile.encryptedClientID = none →
      (UpdatePin c p).configFile.encryptedClientID = c.configFile.encryptedClientID)) ∧
    ((∀ pt, decryptString (withNewHash c p) c.configFile.encryptedClientSecret = some pt →
      (UpdatePin c p).configFile.encryptedClientSecret
        = EncField.ct (KeyBuf.derived (ConfigKey.mk p c.configFile.deviceUUID)) pt) ∧
     (decryptString (withNewHash c p) c.configFile.encryptedClientSecret = none →
      (UpdatePin c p).configFile.encryptedClientSecret
        = c.configFile.encryptedClientSecret)) := by
  have hlock : IsLocked
      { withNewHash c p with
        key := KeyBuf.derived (ConfigKey.mk p c.configFile.deviceUUID) } = false :=
    isLocked_derived _ _ rfl
  refine ⟨⟨?_, ?_⟩, ⟨?_, ?_⟩, ⟨?_, ?_⟩, ⟨?_, ?_⟩, ⟨?_, ?_⟩, ⟨?_, ?_⟩⟩
  · intro pt hd
    rw [updatePin_token_eq, hd, reencryptField_some _ _ _ hlock]
  · intro hd
    rw [updatePin_token_eq, hd, reencryptField_none]
  · intro pt hd
    rw [updatePin_userSym_eq, hd, reencryptField_some _ _ _ hlock]
  · intro hd
    rw [updatePin_userSym_eq, hd, reencryptField_none]
  · intro pt hd
    rw [updatePin_masterPw_eq, hd, reencryptField_some _ _ _ hlock]
  · intro hd
    rw [updatePin_masterPw_eq, hd, reencryptField_none]
  · intro pt hd
    rw [updatePin_masterKey_eq, hd, reencryptField_some _ _ _ hlock]
  · intro hd
    rw [updatePin_masterKey_eq, hd, reencryptField_none]
  · intro pt hd
    rw [updatePin_clientID_eq, hd, reencryptField_some _ _ _ hlock]
  · intro hd
    rw [updatePin_clientID_eq, hd, reencryptField_none]
  · intro pt hd
    rw [updatePin_clientSecret_eq, hd, reencryptField_some _ _ _ hlock]
  · intro hd
    rw [updatePin_clientSecret_eq, hd, reencryptField_none]

/-- Witness for the amended C3: a decryptable token is re-encrypted under
the new key, while the corrupt token of c3cfg is retained unchanged. -/
theorem C3_update_pin_disposition_witness :
    (UpdatePin c3good pin1).configFile.encryptedToken
      = EncField.ct (KeyBuf.derived (ConfigKey.mk pin1 uuid0)) [9, 8] ∧
    (UpdatePin c3cfg pin1).configFile.encryptedToken
      = c3cfg.configFile.encryptedToken :=
  ⟨(C3_update_pin_disposition c3good pin1).1.1 [9, 8] (by decide),
   (C3_update_pin_disposition c3cfg pin1).1.2 (by decide)⟩

/-! Helper lemmas for the update-lock-unlock round trip. -/

/-- UpdatePin installs the key derived from the new pin and the device
UUID. -/
theorem updatePin_key_eq (c : Config) (p : String) :
    (UpdatePin c p).key
      = KeyBuf.derived (ConfigKey.mk p c.configFile.deviceUUID) := rfl

/-- UpdatePin installs the digest of the new key as the config key hash. -/
theorem updatePin_hash_eq (c : Config) (p : String) :
    (UpdatePin c p).configFile.configKeyHash
      = some (ConfigKey.mk p c.configFile.deviceUUID) := rfl

/-- UpdatePin leaves the device UUID unchanged. -/
theorem updatePin_uuid_eq (c : Config) (p : String) :
    (UpdatePin c p).configFile.deviceUUID = c.configFile.deviceUUID := rfl

/-- Locking the store after UpdatePin wipes the key buffer and keeps the
record. -/
theorem lock_updatePin_eq (c : Config) (p : String) :
    Lock (UpdatePin c p) = { UpdatePin c p with key := KeyBuf.zero } := by
  have h : IsLocked (UpdatePin c p) = false :=
    isLocked_derived _ _ (updatePin_key_eq c p)
  simp [Lock, h]

/-- Unlocking with the new pin after UpdatePin and Lock succeeds and
reinstalls the derived key over the UpdatePin record. -/
theorem unlock_lock_updatePin_eq (c : Config) (p : String) :
    Unlock (Lock (UpdatePin c p)) p
      = (true,
         { UpdatePin c p with
           key := KeyBuf.derived (ConfigKey.mk p c.configFile.deviceUUID) }) := by
  rw [lock_updatePin_eq]
  have hpin : HasPin { UpdatePin c p with key := KeyBuf.zero } = true := by
    simp [HasPin, updatePin_hash_eq]
  have hl : IsLocked { UpdatePin c p with key := KeyBuf.zero } = true := by
    simp [IsLocked, hpin]
  simp [Unlock, hl, updatePin_hash_eq, updatePin_uuid_eq]

/-- Core field computation of the round trip: a field that decrypts in the
pre-update store with a derived key decrypts in the UpdatePin output, under
the intermediate state, and is re-encrypted under the new key. -/
theorem c6_field_reencrypted (c : Config) (p : String) (k0 : ConfigKey)
    (hk : c.key = KeyBuf.derived k0) (f : EncField) (pt : ByteStr)
    (hd : decryptString c f = some pt) :
    reencryptField
      { withNewHash c p with
        key := KeyBuf.derived (ConfigKey.mk p c.configFile.deviceUUID) }
      (decryptString (withNewHash c p) f) f
      = EncField.ct (KeyBuf.derived (ConfigKey.mk p c.configFile.deviceUUID)) pt := by
  obtain ⟨hunl, hf⟩ := (decryptString_some_iff c f pt).1 hd
  have h1 : IsLocked (withNewHash c p) = false := by
    apply isLocked_derived _ k0
    rw [← hk]
    rfl
  have h2 : decryptString (withNewHash c p) f = some pt := by
    apply (decryptString_some_iff _ _ _).2
    exact ⟨h1, hf⟩
  rw [h2, reencryptField_some _ _ _ (isLocked_derived _ _ rfl)]

/-- Decrypting a ciphertext under the key currently installed in an
unlocked store succeeds. -/
theorem decryptString_ct_self (c : Config) (pt : ByteStr)
    (h : IsLocked c = false) :
    decryptString c (EncField.ct c.key pt) = some pt := by
  simp [decryptString, h]

/-- Counterexample to claim C6 as stated: a no-PIN store (zero key, no key
hash) is unlocked and its token field, encrypted under the zero key, is
decryptable; but after updatePin, lock and a successful unlock with the new
pin, the token no longer decrypts, because the decrypt-all pass inside
UpdatePin ran with the new key hash already installed and the still-zero key
buffer, so the store looked locked and the zero-key ciphertext was retained
instead of being re-encrypted. -/
theorem C6_counterexample :
    IsLocked c6cfg = false ∧
    decryptString c6cfg c6cfg.configFile.encryptedToken = some [1, 2, 3] ∧
    (Unlock (Lock (UpdatePin c6cfg pin1)) pin1).1 = true ∧
    decryptString (Unlock (Lock (UpdatePin c6cfg pin1)) pin1).2
      ((Unlock (Lock (UpdatePin c6cfg pin1)) pin1).2.configFile.encryptedToken)
      = none := by
  decide

/-- Amended claim C6: for every store that is unlocked with a derived
(nonzero) config key installed, and every field that was set and
decryptable before the update, updatePin(newPin) followed by lock() and
unlock(newPin) succeeds and restores that field to its pre-update plaintext
value.  (The no-PIN zero-key mode is excluded: there the counterexample
applies.) -/
theorem C6_update_lock_unlock_roundtrip (c : Config) (p : String)
    (k0 : ConfigKey) (hk : c.key = KeyBuf.derived k0) :
    (Unlock (Lock (UpdatePin c p)) p).1 = true ∧
    (∀ pt, decryptString c c.configFile.encryptedToken = some pt →
      decryptString (Unlock (Lock (UpdatePin c p)) p).2
        ((Unlock (Lock (UpdatePin c p)) p).2.configFile.encryptedToken)
        = some pt) ∧
    (∀ pt, decryptString c c.configFile.encryptedUserSymmetricKey = some pt →
      decryptString (Unlock (Lock (UpdatePin c p)) p).2
        ((Unlock (Lock (UpdatePin c p)) p).2.configFile.encryptedUserSymmetricKey)
        = some pt) ∧
    (∀ pt, decryptString c c.configFile.encryptedMasterPasswordHash = some pt →
      decryptString (Unlock (Lock (UpdatePin c p)) p).2
        ((Unlock (Lock (UpdatePin c p)) p).2.configFile.encryptedMasterPasswordHash)
        = some pt) ∧
    (∀ pt, decryptString c c.configFile.encryptedMasterKey = some pt →
      decryptString (Unlock (Lock (UpdatePin c p)) p).2
        ((Unlock (Lock (UpdatePin c p)) p).2.configFile.encryptedMasterKey)
        = some pt) ∧
    (∀ pt, decryptString c c.configFile.encryptedClientID = some pt →
      decryptString (Unlock (Lock (UpdatePin c p)) p).2
        ((Unlock (Lock (UpdatePin c p)) p).2.configFile.encryptedClientID)
        = some pt) ∧
    (∀ pt, decryptString c c.configFile.encryptedClientSecret = some pt →
      decryptString (Unlock (Lock (UpdatePin c p)) p).2
        ((Unlock (Lock (UpdatePin c p)) p).2.configFile.encryptedClientSecret)
        = some pt) := by
  have hfinal := unlock_lock_updatePin_eq c p
  have hfl : IsLocked
      { UpdatePin c p with
        key := KeyBuf.derived (ConfigKey.mk p c.configFile.deviceUUID) } = false :=
    isLocked_derived _ _ rfl
  refine ⟨by rw [hfinal], ?_, ?_, ?_, ?_, ?_, ?_⟩
  · intro pt hd
    rw [hfinal]
    show decryptString _ ((UpdatePin c p).configFile.encryptedToken) = some pt
    rw [updatePin_token_eq, c6_field_reencrypted c p k0 hk _ pt hd]
    exact decryptString_ct_self _ pt hfl
  · intro pt hd
    rw [hfinal]
    show decryptString _ ((UpdatePin c p).configFile.encryptedUserSymmetricKey) = some pt
    rw [updatePin_userSym_eq, c6_field_reencrypted c p k0 hk _ pt hd]
    exact decryptString_ct_self _ pt hfl
  · intro pt hd
    rw [hfinal]
    show decryptString _ ((UpdatePin c p).configFile.encryptedMasterPasswordHash) = some pt
    rw [updatePin_masterPw_eq, c6_field_reencrypted c p k0 hk _ pt hd]
    exact decryptString_ct_self _ pt hfl
  · intro pt hd
    rw [hfinal]
    show decryptString _ ((UpdatePin c p).configFile.encryptedMasterKey) = some pt
    rw [updatePin_masterKey_eq, c6_field_reencrypted c p k0 hk _ pt hd]
    exact decryptString_ct_self _ pt hfl
  · intro pt hd
    rw [hfinal]
    show decryptString _ ((UpdatePin c p).configFile.encryptedClientID) = some pt
    rw [updatePin_clientID_eq, c6_field_reencrypted c p k0 hk _ pt hd]
    exact decryptString_ct_self _ pt hfl
  · intro pt hd
    rw [hfinal]
    show decryptString _ ((UpdatePin c p).configFile.encryptedClientSecret) = some pt
    rw [updatePin_clientSecret_eq, c6_field_reencrypted c p k0 hk _ pt hd]
    exact decryptString_ct_self _ pt hfl

/-- Witness for the amended C6: the PIN-carrying store c3good, re-keyed to
pin1, locked and unlocked again, still decrypts its token to the original
plaintext. -/
theorem C6_update_lock_unlock_roundtrip_witness :
    decryptString (Unlock (Lock (UpdatePin c3good pin1)) pin1).2
      ((Unlock (Lock (UpdatePin c3good pin1)) pin1).2.configFile.encryptedToken)
      = some [9, 8] :=
  (C6_update_lock_unlock_roundtrip c3good pin1 (ConfigKey.mk pin0 uuid0)
    (by decide)).2.1 [9, 8] (by decide)

/-- Counterexample to claim C2 as stated: a cipher-create event for an item
whose fetch returns a non-zero deleted-timestamp does NOT perform a delete;
the create branch has no deleted-timestamp check and upserts the trashed
item into the vault (present afterwards), unlike the delete the claim
requires (which would leave the empty vault empty). -/
theorem C2_counterexample :
    cipherDeleted.deletedDateZero = false ∧
    fetchDeleted idAbc = FetchResult.ok cipherDeleted ∧
    applyCipherEvent emptyVault NotificationMessageType.syncCipherCreate true
        fetchDeleted idAbc 7
      = { logins := [(idAbc, cipherDeleted)], secureNotes := [], sshKeys := [],
          lastSynced := 7 } ∧
    DeleteCipher emptyVault idAbc = emptyVault := by
  decide

/-- Amended claim C2: a cipher-update event whose single-item fetch returns
an item with a non-zero deleted-timestamp deletes that item from VaultState
(and does not stamp the last-synced timestamp); a cipher-create event
upserts the fetched item by type and stamps the timestamp regardless of its
deleted-timestamp. -/
theorem C2_update_deletes_create_upserts (v : Vault) (fetch : String → FetchResult)
    (i : String) (now : Int) (cipher : Cipher)
    (hf : fetch i = FetchResult.ok cipher)
    (hd : cipher.deletedDateZero = false) :
    applyCipherEvent v NotificationMessageType.syncCipherUpdate true fetch i now
      = DeleteCipher v i ∧
    applyCipherEvent v NotificationMessageType.syncCipherCreate true fetch i now
      = SetLastSynced
          (if cipher.ty = CipherType.note then AddOrUpdateSecureNote v cipher
           else AddOrUpdateLogin v cipher) now := by
  constructor
  · simp [applyCipherEvent, hf, hd]
  · simp [applyCipherEvent, hf]

/-- Witness for the amended C2: the trashed login is deleted by an update
event and upserted by a create event on the empty vault. -/
theorem C2_update_deletes_create_upserts_witness :
    applyCipherEvent emptyVault NotificationMessageType.syncCipherUpdate true
        fetchDeleted idAbc 7
      = DeleteCipher emptyVault idAbc :=
  (C2_update_deletes_create_upserts emptyVault fetchDeleted idAbc 7 cipherDeleted
    (by decide) (by decide)).1

/-! Full sync. -/

/-- One full-sync upsert step never changes the last-synced timestamp. -/
theorem fullSyncStep_lastSynced (v : Vault) (c : Cipher) :
    (fullSyncStep v c).lastSynced = v.lastSynced := by
  unfold fullSyncStep
  split <;> rfl

/-- Folding full-sync upsert steps never changes the last-synced
timestamp. -/
theorem foldl_fullSyncStep_lastSynced (cs : List Cipher) (v : Vault) :
    (cs.foldl fullSyncStep v).lastSynced = v.lastSynced := by
  induction cs generalizing v with
  | nil => rfl
  | cons c cs ih => rw [List.foldl_cons, ih, fullSyncStep_lastSynced]

/-- Claim C9: full sync stamps the last-synced timestamp, clears VaultState
entirely (the result does not depend on the prior vault at all), upserts
every snapshot item dispatching by item type to the matching upsert
operation, and is idempotent for a fixed snapshot. -/
theorem C9_full_sync (v w : Vault) (sync : SyncData) (now : Int) :
    (DoFullSync v sync now).lastSynced = now ∧
    DoFullSync v sync now = DoFullSync w sync now ∧
    (∀ cs c, DoFullSync v (SyncData.mk (cs ++ [c])) now
      = fullSyncStep (DoFullSync v (SyncData.mk cs) now) c) ∧
    DoFullSync (DoFullSync v sync now) sync now = DoFullSync v sync now := by
  refine ⟨?_, rfl, ?_, rfl⟩
  · rw [DoFullSync, foldl_fullSyncStep_lastSynced]
    rfl
  · intro cs c
    simp [DoFullSync, List.foldl_append]

/-! Websocket frame decoding: characterizing when the decoder crashes. -/

/-- The decode function returns the crash marker exactly on the
Id-not-a-string shape. -/
theorem parse_none_iff (d : Option (List MsgVal)) :
    parseMessageTypeFromMessagePack d = none ↔ idNotStringShape d = true := by
  rcases d with _ | value
  · simp [parseMessageTypeFromMessagePack, idNotStringShape]
  rcases value with _ | ⟨a1, value⟩
  · simp [parseMessageTypeFromMessagePack, idNotStringShape]
  rcases value with _ | ⟨a2, value⟩
  · simp [parseMessageTypeFromMessagePack, idNotStringShape]
  rcases value with _ | ⟨a3, value⟩
  · simp [parseMessageTypeFromMessagePack, idNotStringShape]
  rcases value with _ | ⟨a4, value⟩
  · simp [parseMessageTypeFromMessagePack, idNotStringShape]
  rcases value with _ | ⟨a5, rest⟩
  · simp [parseMessageTypeFromMessagePack, idNotStringShape]
  cases a5 with
  | arr inner =>
    rcases inner with _ | ⟨x, itail⟩
    · simp [parseMessageTypeFromMessagePack, idNotStringShape]
    cases x with
    | map m =>
      simp only [parseMessageTypeFromMessagePack, idNotStringShape]
      rcases hT : m.lookup keyType with _ | tv
      · simp [hT]
      cases tv with
      | int t =>
        simp only [hT]
        rcases hP : m.lookup keyPayload with _ | pv
        · simp [hP]
        cases pv with
        | map pm =>
          simp only [hP]
          rcases hI : pm.lookup keyId with _ | iv
          · simp [hI]
          cases iv <;> simp [hI]
        | nil => simp [hP]
        | int i => simp [hP]
        | str s => simp [hP]
        | arr xs => simp [hP]
        | other t2 => simp [hP]
      | nil => simp [hT]
      | str s => simp [hT]
      | arr xs => simp [hT]
      | map mm => simp [hT]
      | other t2 => simp [hT]
    | nil => simp [parseMessageTypeFromMessagePack, idNotStringShape]
    | int i => simp [parseMessageTypeFromMessagePack, idNotStringShape]
    | str s => simp [parseMessageTypeFromMessagePack, idNotStringShape]
    | arr xs => simp [parseMessageTypeFromMessagePack, idNotStringShape]
    | other t => simp [parseMessageTypeFromMessagePack, idNotStringShape]
  | nil => simp [parseMessageTypeFromMessagePack, idNotStringShape]
  | int i => simp [parseMessageTypeFromMessagePack, idNotStringShape]
  | str s => simp [parseMessageTypeFromMessagePack, idNotStringShape]
  | map mm => simp [parseMessageTypeFromMessagePack, idNotStringShape]
  | other t => simp [parseMessageTypeFromMessagePack, idNotStringShape]

/-- Counterexample to claim C1 as stated: a frame of 5 or more bytes whose
decoded payload is structurally well-formed except that the Payload map
binds Id to a non-string value makes the reader crash (the Go code runs the
unchecked type assertion on the Id value and panics), rather than treating
the malformed shape as a logged decode failure. -/
theorem C1_counterexample :
    5 ≤ badFrame.length ∧
    idNotStringShape badDecoded = true ∧
    handleFrame badDec badFrame = FrameAction.crash := by
  decide

/-- Amended claim C1: frames shorter than 5 bytes are discarded; a decode
error and each explicitly checked structural deviation (too few top-level
elements, element 4 not an array or empty, first element not a map, missing
Type, Type not an int8) yields the failure result (0, empty, false); on
every decoded payload other than the Id-not-a-string shape the decode
function totally returns a result and the reader loop continues instead of
crashing; on the Id-not-a-string shape it panics. -/
theorem C1_frame_decode :
    (∀ (dec : List Nat → Option (List MsgVal)) (msg : List Nat),
      msg.length < 5 → handleFrame dec msg = FrameAction.skip) ∧
    (parseMessageTypeFromMessagePack none = some (0, "", false)) ∧
    (∀ value : List MsgVal, value.length < 5 →
      parseMessageTypeFromMessagePack (some value) = some (0, "", false)) ∧
    (∀ (a b c d e : MsgVal) (rest : List MsgVal),
      (∀ inner, e ≠ MsgVal.arr inner) →
      parseMessageTypeFromMessagePack (some (a :: b :: c :: d :: e :: rest))
        = some (0, "", false)) ∧
    (∀ (a b c d : MsgVal) (rest : List MsgVal),
      parseMessageTypeFromMessagePack
          (some (a :: b :: c :: d :: MsgVal.arr [] :: rest))
        = some (0, "", false)) ∧
    (∀ (a b c d x : MsgVal) (itail rest : List MsgVal),
      (∀ m, x ≠ MsgVal.map m) →
      parseMessageTypeFromMessagePack
          (some (a :: b :: c :: d :: MsgVal.arr (x :: itail) :: rest))
        = some (0, "", false)) ∧
    (∀ (a b c d : MsgVal) (m : List (String × MsgVal))
        (itail rest : List MsgVal),
      m.lookup keyType = none →
      parseMessageTypeFromMessagePack
          (some (a :: b :: c :: d :: MsgVal.arr (MsgVal.map m :: itail) :: rest))
        = some (0, "", false)) ∧
    (∀ (a b c d : MsgVal) (m : List (String × MsgVal))
        (itail rest : List MsgVal) (tv : MsgVal),
      m.lookup keyType = some tv → (∀ i, tv ≠ MsgVal.int i) →
      parseMessageTypeFromMessagePack
          (some (a :: b :: c :: d :: MsgVal.arr (MsgVal.map m :: itail) :: rest))
        = some (0, "", false)) ∧
    (∀ dd : Option (List MsgVal), idNotStringShape dd = false →
      (parseMessageTypeFromMessagePack dd).isSome = true) ∧
    (∀ (dec : List Nat → Option (List MsgVal)) (msg : List Nat),
      idNotStringShape (dec (stripLengthHeader msg)) = false →
      handleFrame dec msg ≠ FrameAction.crash) := by
  refine ⟨?_, rfl, ?_, ?_, ?_, ?_, ?_, ?_, ?_, ?_⟩
  · intro dec msg h
    simp [handleFrame, h]
  · intro value h
    rcases value with _ | ⟨a, _ | ⟨b, _ | ⟨c, _ | ⟨d, _ | ⟨e, rest⟩⟩⟩⟩⟩
    · rfl
    · rfl
    · rfl
    · rfl
    · rfl
    · simp only [List.length_cons] at h
      omega
  · intro a b c d e rest h
    cases e with
    | arr inner => exact absurd rfl (h inner)
    | nil => rfl
    | int i => rfl
    | str s => rfl
    | map m => rfl
    | other t => rfl
  · intro a b c d rest
    rfl
  · intro a b c d x itail rest h
    cases x with
    | map m => exact absurd rfl (h m)
    | nil => rfl
    | int i => rfl
    | str s => rfl
    | arr xs => rfl
    | other t => rfl
  · intro a b c d m itail rest h
    simp [parseMessageTypeFromMessagePack, h]
  · intro a b c d m itail rest tv h hne
    simp only [parseMessageTypeFromMessagePack, h]
    cases tv with
    | int i => exact absurd rfl (hne i)
    | nil => rfl
    | str s => rfl
    | arr xs => rfl
    | map mm => rfl
    | other t => rfl
  · intro dd h
    cases hp : parseMessageTypeFromMessagePack dd with
    | some r => rfl
    | none =>
      have hs := (parse_none_iff dd).1 hp
      rw [h] at hs
      exact absurd hs Bool.false_ne_true
  · intro dec msg h
    by_cases hlen : msg.length < 5
    · simp [handleFrame, hlen]
    · cases hp : parseMessageTypeFromMessagePack (dec (stripLengthHeader msg)) with
      | none =>
        have hs := (parse_none_iff _).1 hp
        rw [h] at hs
        exact absurd hs Bool.false_ne_true
      | some r =>
        obtain ⟨t, i, b⟩ := r
        cases b <;> simp [handleFrame, websocketMessageType, hlen, hp]

/-- Witness for the amended C1: a 2-byte keep-alive frame is skipped, a
well-formed decoded event parses to a result, and a frame decoding to the
well-formed event does not crash the reader. -/
theorem C1_frame_decode_witness :
    handleFrame badDec [0, 1] = FrameAction.skip ∧
    (parseMessageTypeFromMessagePack goodDecoded).isSome = true ∧
    handleFrame (fun _ => goodDecoded) badFrame ≠ FrameAction.crash :=
  ⟨C1_frame_decode.1 badDec [0, 1] (by decide),
   C1_frame_decode.2.2.2.2.2.2.2.2.1 goodDecoded (by decide),
   C1_frame_decode.2.2.2.2.2.2.2.2.2 (fun _ => goodDecoded) badFrame (by decide)⟩

end Goldwarden
